import Mathlib

/-!
# Weather panel (src/components/UI/Weather.jsx)

A shallow embedding of the weather widget: the values the JavaScript code
inspects, the three helpers `getCurrentLocation`, `fetchWeatherData` and
`getLocationErrorMessage`, and the click handler `getKeyFromStorageAndFetch`
of the `Weather` component acting on its three `useState` cells.

The browser (event, storage, geolocation, `fetch`) is an explicit environment
record; every call the handler makes to it is appended to an effect trace.
-/

namespace WeatherPanel

/-! ## JavaScript values -/

/-- A JavaScript number: the finite doubles are embedded in the rationals
(`-0` and `0` coincide, which is sound for `===` and for truthiness). -/
inductive JSNumber where
  | nan
  | posInf
  | negInf
  | finite (q : ℚ)

/-- The JavaScript values the component can observe. An object is given by the
result of its property reads (own and inherited properties alike). -/
inductive JSValue where
  | undefined
  | null
  | bool (b : Bool)
  | number (n : JSNumber)
  | bigint (i : Int)
  | string (s : String)
  | symbol (id : Nat)
  | object (props : List (String × JSValue))

/-- ToBoolean: the test performed by `if (x)`, `!x`, `x && ...`. -/
def toBoolean : JSValue → Bool
  | .undefined => false
  | .null => false
  | .bool b => b
  | .number .nan => false
  | .number (.finite q) => decide (q ≠ 0)
  | .number _ => true
  | .bigint i => decide (i ≠ 0)
  | .string s => decide (s ≠ "")
  | .symbol _ => true
  | .object _ => true

/-- The comparison `v === n` against a finite numeric literal `n`: true exactly
when `v` is a number with that value (no coercion of strings or bigints). -/
def strictEqualsNumber (v : JSValue) (n : ℚ) : Bool :=
  match v with
  | .number (.finite q) => decide (q = n)
  | _ => false

/-- Property read `v.name`. Reading a property of `undefined` or `null` throws
a TypeError (returned as `Except.error`); an object yields the stored value or
`undefined`; the other primitives have no property called `code` or `message`,
the only two names the component reads from an unknown value. -/
def getProp (v : JSValue) (name : String) : Except JSValue JSValue :=
  match v with
  | .undefined => .error (.object [("name", .string "TypeError")])
  | .null => .error (.object [("name", .string "TypeError")])
  | .object props => .ok ((props.lookup name).getD .undefined)
  | _ => .ok .undefined

/-- The object built by `new Error(message)`. -/
def newError (message : String) : JSValue :=
  .object [("name", .string "Error"), ("message", .string message)]

/-! ## Error translator (lines 34-46) -/

/-- The function `getLocationErrorMessage(error)`: the three `error.code === n`
tests in order, then the truthiness test on `error.message`, then the default.
A thrown TypeError (property read on `undefined` or `null`) is `Except.error`. -/
def getLocationErrorMessage (error : JSValue) : Except JSValue JSValue :=
  match getProp error "code" with
  | .error thrown => .error thrown
  | .ok code =>
    if strictEqualsNumber code 1 then
      .ok (.string "위치 접근이 거부되었습니다.")
    else if strictEqualsNumber code 2 then
      .ok (.string "위치 정보를 사용할 수 없습니다.")
    else if strictEqualsNumber code 3 then
      .ok (.string "위치 정보 요청이 시간 초과되었습니다.")
    else
      match getProp error "message" with
      | .error thrown => .error thrown
      | .ok message =>
        if toBoolean message then
          .ok message
        else
          .ok (.string "알 수 없는 오류가 발생했습니다.")

/-! ## The browser as seen by the component -/

/-- A call the component makes to its surroundings, in program order. -/
inductive Effect where
  | preventDefault
  | saveAPIKey
  | storageGetItem (key : String)
  | getCurrentPosition
  | fetch (url : String)
  | responseJson

/-- How a promise (or a pair of success and error callbacks) ends. -/
inductive Settlement (α : Type) where
  | pending
  | fulfilled (value : α)
  | rejected (reason : JSValue)

/-- The object `{ latitude, longitude }` passed from the location step to the
weather step. -/
structure Coordinates where
  latitude : JSValue
  longitude : JSValue

/-- The `coords` member of the position handed to the success callback. -/
structure PositionCoords where
  latitude : JSValue
  longitude : JSValue
  accuracy : JSValue

/-- The position object handed to the success callback of
`navigator.geolocation.getCurrentPosition`. -/
structure Position where
  coords : PositionCoords
  timestamp : JSValue

/-- The parts of a `fetch` response the code can touch: the `ok` flag, the
status code (never read) and what `response.json()` settles with. -/
structure Response where
  ok : Bool
  status : Nat
  json : Settlement JSValue

/-- The surroundings of one handler run. `getItem key` is what
`localStorage.getItem(key)` returns once `saveAPIKey()` has run (`none` is
`null`); `geolocation` is `none` when `navigator.geolocation` is missing and
otherwise tells which callback of `getCurrentPosition` fires; `fetch url` is
what `fetch(url)` settles with. -/
structure Env where
  getItem : String → Option String
  geolocation : Option (Settlement Position)
  fetch : String → Settlement Response

/-! ## Location provider (lines 6-22) and weather fetcher (lines 25-31) -/

/-- The function `getCurrentLocation()`: the promise outcome and the calls made. -/
def getCurrentLocation (env : Env) : Settlement Coordinates × List Effect :=
  match env.geolocation with
  | some callbacks =>
    (match callbacks with
      | .fulfilled position =>
        .fulfilled { latitude := position.coords.latitude, longitude := position.coords.longitude }
      | .rejected error => .rejected error
      | .pending => .pending,
     [Effect.getCurrentPosition])
  | none => (.rejected (newError "Geolocation is not supported by this browser."), [])

/-- The constant `url` of `fetchWeatherData` (line 26). The parameter `render`
is the string conversion applied by the template literal to the two
interpolated coordinates; the key is already a string. -/
def url (render : JSValue → String) (coords : Coordinates) (apiKey : String) : String :=
  "https://api.openweathermap.org/data/2.5/weather?lat=" ++ render coords.latitude
    ++ "&lon=" ++ render coords.longitude ++ "&appid=" ++ apiKey ++ "&units=metric"

/-- The function `fetchWeatherData({ latitude, longitude }, apiKey)`: the
promise outcome and the calls made. -/
def fetchWeatherData (render : JSValue → String) (env : Env) (coords : Coordinates)
    (apiKey : String) : Settlement JSValue × List Effect :=
  match env.fetch (url render coords apiKey) with
  | .pending => (.pending, [Effect.fetch (url render coords apiKey)])
  | .rejected reason => (.rejected reason, [Effect.fetch (url render coords apiKey)])
  | .fulfilled response =>
    if !response.ok then
      (.rejected (newError "날씨 정보를 불러오지 못했습니다."),
       [Effect.fetch (url render coords apiKey)])
    else
      (response.json, [Effect.fetch (url render coords apiKey), Effect.responseJson])

/-! ## The Weather component (lines 48-80) -/

/-- The three `useState` cells of the component. `weather` and `error` hold
`null` when absent. -/
structure PanelState where
  weather : JSValue
  loading : Bool
  error : JSValue

/-- The initial values: `useState(null)`, `useState(true)`, `useState(null)`. -/
def initialState : PanelState :=
  { weather := .null, loading := true, error := .null }

/-- The state setter `setWeather`. -/
def setWeather (value : JSValue) (s : PanelState) : PanelState :=
  { s with weather := value }

/-- The state setter `setLoading`. -/
def setLoading (value : Bool) (s : PanelState) : PanelState :=
  { s with loading := value }

/-- The state setter `setError`. -/
def setError (value : JSValue) (s : PanelState) : PanelState :=
  { s with error := value }

/-- The synchronous part of the handler on the cells (lines 59-67), given the
value read from storage: the new cells, and the key when a request chain is
started. `!storedKey` holds for `null` and for the empty string. -/
def enterFetch (storedKey : Option String) (s : PanelState) : PanelState × Option String :=
  match storedKey with
  | none => (setWeather .null (setError (.string "API 키를 입력해주세요.") s), none)
  | some key =>
    if key = "" then
      (setWeather .null (setError (.string "API 키를 입력해주세요.") s), none)
    else
      (setError .null (setLoading true s), some key)

/-- The chain `getCurrentLocation().then((coords) => fetchWeatherData(coords, storedKey))`
(lines 69-70). -/
def locateThenFetch (render : JSValue → String) (env : Env) (storedKey : String) :
    Settlement JSValue × List Effect :=
  match getCurrentLocation env with
  | (.fulfilled coords, located) =>
    ((fetchWeatherData render env coords storedKey).1,
     located ++ (fetchWeatherData render env coords storedKey).2)
  | (.rejected error, located) => (.rejected error, located)
  | (.pending, located) => (.pending, located)

/-- The success handler (lines 71-74). -/
def onFulfilled (weatherData : JSValue) (s : PanelState) : PanelState :=
  setLoading false (setWeather weatherData s)

/-- The `catch` handler (lines 75-79). When `getLocationErrorMessage` throws,
no setter has run yet and the cells keep their values. -/
def onRejected (error : JSValue) (s : PanelState) : PanelState :=
  match getLocationErrorMessage error with
  | .ok message => setWeather .null (setLoading false (setError message s))
  | .error _ => s

/-- The cells once the handlers attached to a chain have run. -/
def settle (outcome : Settlement JSValue) (s : PanelState) : PanelState :=
  match outcome with
  | .pending => s
  | .fulfilled weatherData => onFulfilled weatherData s
  | .rejected error => onRejected error s

/-- One run of the handler: the cells right after its synchronous part, the
cells once its request chain (if any) has settled, and every call made. -/
structure Run where
  entered : PanelState
  settled : PanelState
  trace : List Effect

/-- The handler `getKeyFromStorageAndFetch(event)`, run alone from cells `s`. -/
def getKeyFromStorageAndFetch (render : JSValue → String) (env : Env) (s : PanelState) : Run :=
  let prologue := [Effect.preventDefault, Effect.saveAPIKey, Effect.storageGetItem "apiKey"]
  match enterFetch (env.getItem "apiKey") s with
  | (entered, none) => { entered := entered, settled := entered, trace := prologue }
  | (entered, some storedKey) =>
    { entered := entered
      settled := settle (locateThenFetch render env storedKey).1 entered
      trace := prologue ++ (locateThenFetch render env storedKey).2 }

/-! ## Sequences of clicks and settlements -/

/-- The component over time: its cells and the number of request chains that
have been started and have not settled yet. -/
structure Machine where
  panel : PanelState
  inFlight : Nat

/-- What can happen to a mounted component: a click on the button (with the
value the storage read returns), or one of the started chains settling. -/
inductive PanelEvent where
  | click (storedKey : Option String)
  | chainFulfilled (weatherData : JSValue)
  | chainRejected (error : JSValue)

/-- One event applied to the component. A settlement with no chain in flight
cannot happen and leaves the component as it is. -/
def step (m : Machine) : PanelEvent → Machine
  | .click storedKey =>
    match enterFetch storedKey m.panel with
    | (entered, none) => { panel := entered, inFlight := m.inFlight }
    | (entered, some _) => { panel := entered, inFlight := m.inFlight + 1 }
  | .chainFulfilled weatherData =>
    if m.inFlight = 0 then m
    else { panel := onFulfilled weatherData m.panel, inFlight := m.inFlight - 1 }
  | .chainRejected error =>
    if m.inFlight = 0 then m
    else { panel := onRejected error m.panel, inFlight := m.inFlight - 1 }

/-- The component after a sequence of events from its mount. -/
def runEvents (events : List PanelEvent) : Machine :=
  events.foldl step { panel := initialState, inFlight := 0 }

/-- The states the component can be in. -/
def Reachable (s : PanelState) : Prop :=
  ∃ events, (runEvents events).panel = s

/-! ## Sample data -/

/-- An error object as the geolocation API reports a refused permission. -/
def deniedError : JSValue :=
  .object [("code", .number (.finite 1)), ("message", .string "User denied Geolocation")]

/-- A response body as the weather service sends it. -/
def seoulBody : JSValue :=
  .object
    [("name", .string "Seoul"),
     ("main", .object [("temp", .number (.finite (43 / 2)))]),
     ("weather", .object
        [("0", .object [("icon", .string "01d"), ("description", .string "clear sky")]),
         ("length", .number (.finite 1))])]

/-- A position fix at latitude 37.5 and longitude 127. -/
def seoulPosition : Position :=
  { coords :=
      { latitude := .number (.finite (75 / 2))
        longitude := .number (.finite 127)
        accuracy := .number (.finite 10) }
    timestamp := .number (.finite 0) }

/-- A string conversion, given on the two numbers of the sample position only. -/
def sampleRender : JSValue → String
  | .number (.finite q) => if q = 75 / 2 then "37.5" else if q = 127 then "127" else ""
  | _ => ""

/-- Surroundings with a stored key, a position fix and a given `fetch` outcome. -/
def sampleEnv (storedKey : Option String) (located : Settlement Position)
    (fetched : Settlement Response) : Env :=
  { getItem := fun key => if key = "apiKey" then storedKey else none
    geolocation := some located
    fetch := fun _ => fetched }

/-! ## Error translator: the three dispatch rules -/

/-- The test `code === n` fails on every value other than the number `n`. -/
theorem strictEqualsNumber_of_ne {code : JSValue} {n : ℚ}
    (hn : code ≠ .number (.finite n)) : strictEqualsNumber code n = false := by
  unfold strictEqualsNumber
  split
  · rename_i q
    have hq : q ≠ n := fun h => hn (by rw [h])
    simp [hq]
  · rfl

/-- On an object the translator never throws. -/
theorem getLocationErrorMessage_object (props : List (String × JSValue)) :
    ∃ message, getLocationErrorMessage (.object props) = .ok message := by
  unfold getLocationErrorMessage
  simp only [getProp]
  split_ifs <;> exact ⟨_, rfl⟩

/-- An error whose code is the number 1 is translated by the first test. -/
theorem getLocationErrorMessage_of_code_one (error : JSValue)
    (hcode : getProp error "code" = .ok (.number (.finite 1))) :
    getLocationErrorMessage error = .ok (.string "위치 접근이 거부되었습니다.") := by
  simp [getLocationErrorMessage, hcode, strictEqualsNumber]

/-- The error built by `new Error(m)` with a non-empty text is translated to
that text: it has no code and its message is truthy. -/
theorem getLocationErrorMessage_newError (m : String) (hm : m ≠ "") :
    getLocationErrorMessage (newError m) = .ok (.string m) := by
  have hcode : getProp (newError m) "code" = .ok .undefined := rfl
  have hmessage : getProp (newError m) "message" = .ok (.string m) := rfl
  simp [getLocationErrorMessage, hcode, hmessage, strictEqualsNumber, toBoolean, hm]

/-- C1: for every error whose `code` is the number 1, 2 or 3,
`getLocationErrorMessage` returns the fixed message of that code, whatever the
error holds as `message` (nothing is assumed about it). -/
theorem getLocationErrorMessage_classified (error : JSValue) (n : ℚ)
    (hcode : getProp error "code" = .ok (.number (.finite n))) :
    (n = 1 → getLocationErrorMessage error = .ok (.string "위치 접근이 거부되었습니다.")) ∧
    (n = 2 → getLocationErrorMessage error = .ok (.string "위치 정보를 사용할 수 없습니다.")) ∧
    (n = 3 → getLocationErrorMessage error
      = .ok (.string "위치 정보 요청이 시간 초과되었습니다.")) := by
  refine ⟨?_, ?_, ?_⟩ <;> intro hn <;> subst hn <;>
    simp [getLocationErrorMessage, hcode, strictEqualsNumber]

/-- Witness of C1 on a denied-permission error that carries its own message. -/
theorem getLocationErrorMessage_classified_witness :
    getLocationErrorMessage deniedError = .ok (.string "위치 접근이 거부되었습니다.") :=
  (getLocationErrorMessage_classified deniedError 1 rfl).1 rfl

/-- C2: for every error whose `code` is none of the numbers 1, 2, 3 (an absent
code reads as `undefined`) and whose `message` is a non-empty string `m`,
`getLocationErrorMessage` returns `m` itself. -/
theorem getLocationErrorMessage_message (error code : JSValue) (m : String)
    (hcode : getProp error "code" = .ok code)
    (h1 : code ≠ .number (.finite 1)) (h2 : code ≠ .number (.finite 2))
    (h3 : code ≠ .number (.finite 3))
    (hmessage : getProp error "message" = .ok (.string m)) (hm : m ≠ "") :
    getLocationErrorMessage error = .ok (.string m) := by
  simp [getLocationErrorMessage, hcode, hmessage, strictEqualsNumber_of_ne h1, strictEqualsNumber_of_ne h2,
    strictEqualsNumber_of_ne h3, toBoolean, hm]

/-- Witness of C2 on the error built by `new Error(...)`, which has no code. -/
theorem getLocationErrorMessage_message_witness :
    getLocationErrorMessage (newError "Failed to fetch") = .ok (.string "Failed to fetch") :=
  getLocationErrorMessage_message (newError "Failed to fetch") .undefined "Failed to fetch"
    rfl (by simp) (by simp) (by simp) rfl (by decide)

/-- C3: for every error whose `code` is none of the numbers 1, 2, 3 and which
has no `message` (the read gives `undefined`), `getLocationErrorMessage`
returns the fixed unknown-error message. -/
theorem getLocationErrorMessage_unknown (error code : JSValue)
    (hcode : getProp error "code" = .ok code)
    (h1 : code ≠ .number (.finite 1)) (h2 : code ≠ .number (.finite 2))
    (h3 : code ≠ .number (.finite 3))
    (hmessage : getProp error "message" = .ok .undefined) :
    getLocationErrorMessage error = .ok (.string "알 수 없는 오류가 발생했습니다.") := by
  simp [getLocationErrorMessage, hcode, hmessage, strictEqualsNumber_of_ne h1, strictEqualsNumber_of_ne h2,
    strictEqualsNumber_of_ne h3, toBoolean]

/-- Witness of C3 on the empty object and on an object with an unknown code. -/
theorem getLocationErrorMessage_unknown_witness :
    getLocationErrorMessage (.object []) = .ok (.string "알 수 없는 오류가 발생했습니다.") ∧
    getLocationErrorMessage (.object [("code", .number (.finite 4))])
      = .ok (.string "알 수 없는 오류가 발생했습니다.") :=
  ⟨getLocationErrorMessage_unknown (.object []) .undefined rfl (by simp) (by simp) (by simp) rfl,
   getLocationErrorMessage_unknown (.object [("code", .number (.finite 4))])
     (.number (.finite 4)) rfl (by simp) (by simp) (by simp) rfl⟩

/-! ## The handler, run alone -/

/-- With a usable key the handler enters a cycle and then runs the chain. -/
theorem getKeyFromStorageAndFetch_of_key (render : JSValue → String) (env : Env)
    (s : PanelState) (key : String) (hkey : env.getItem "apiKey" = some key) (hne : key ≠ "") :
    getKeyFromStorageAndFetch render env s =
      { entered := setError .null (setLoading true s)
        settled := settle (locateThenFetch render env key).1 (setError .null (setLoading true s))
        trace := [Effect.preventDefault, Effect.saveAPIKey, Effect.storageGetItem "apiKey"]
          ++ (locateThenFetch render env key).2 } := by
  simp [getKeyFromStorageAndFetch, enterFetch, hkey, hne]

/-- A rejection of the location step is the outcome of the chain. -/
theorem locateThenFetch_of_location_rejected (render : JSValue → String) (env : Env)
    (key : String) (error : JSValue) (h : (getCurrentLocation env).1 = .rejected error) :
    (locateThenFetch render env key).1 = .rejected error := by
  unfold locateThenFetch
  rcases hloc : getCurrentLocation env with ⟨outcome, located⟩
  rw [hloc] at h
  simp only at h
  subst h
  rfl

/-- After a position fix the chain is the weather step on those coordinates. -/
theorem locateThenFetch_of_location_fulfilled (render : JSValue → String) (env : Env)
    (key : String) (coords : Coordinates) (h : (getCurrentLocation env).1 = .fulfilled coords) :
    locateThenFetch render env key =
      ((fetchWeatherData render env coords key).1,
       (getCurrentLocation env).2 ++ (fetchWeatherData render env coords key).2) := by
  unfold locateThenFetch
  rcases hloc : getCurrentLocation env with ⟨outcome, located⟩
  rw [hloc] at h
  simp only at h
  subst h
  rfl

/-- C4: from every state, when the storage read of the key gives nothing, the
handler ends with the enter-a-key error, no weather and the loading flag it
started with, and its trace holds no geolocation request and no HTTP request. -/
theorem getKeyFromStorageAndFetch_missing_key (render : JSValue → String) (env : Env)
    (s : PanelState) (hkey : env.getItem "apiKey" = none) :
    (getKeyFromStorageAndFetch render env s).settled
      = { weather := .null, loading := s.loading, error := .string "API 키를 입력해주세요." } ∧
    (getKeyFromStorageAndFetch render env s).entered
      = (getKeyFromStorageAndFetch render env s).settled ∧
    Effect.getCurrentPosition ∉ (getKeyFromStorageAndFetch render env s).trace ∧
    ∀ u, Effect.fetch u ∉ (getKeyFromStorageAndFetch render env s).trace := by
  simp [getKeyFromStorageAndFetch, enterFetch, hkey, setWeather, setError]

/-- Witness of C4 from the initial state, with a position fix and a response
at hand that are never asked for. -/
theorem getKeyFromStorageAndFetch_missing_key_witness :
    (getKeyFromStorageAndFetch sampleRender
        (sampleEnv none (.fulfilled seoulPosition)
          (.fulfilled { ok := true, status := 200, json := .fulfilled seoulBody }))
        initialState).settled
      = { weather := .null, loading := true, error := .string "API 키를 입력해주세요." } :=
  (getKeyFromStorageAndFetch_missing_key sampleRender
    (sampleEnv none (.fulfilled seoulPosition)
      (.fulfilled { ok := true, status := 200, json := .fulfilled seoulBody }))
    initialState rfl).1

/-- C5: from every state (also one that shows an error), with a stored
non-empty key and coordinates the location step resolves with, when `fetch`
answers the request with a response whose `ok` is true (any status) and whose
body parses to `B`, the weather step resolves with `B`, and the state after the
chain settles is loading off, no error, weather equal to `B` as parsed. -/
theorem getKeyFromStorageAndFetch_success (render : JSValue → String) (env : Env)
    (s : PanelState) (key : String) (coords : Coordinates) (response : Response) (B : JSValue)
    (hkey : env.getItem "apiKey" = some key) (hne : key ≠ "")
    (hloc : (getCurrentLocation env).1 = .fulfilled coords)
    (hfetch : env.fetch (url render coords key) = .fulfilled response)
    (hok : response.ok = true) (hjson : response.json = .fulfilled B) :
    (fetchWeatherData render env coords key).1 = .fulfilled B ∧
    (getKeyFromStorageAndFetch render env s).settled
      = { weather := B, loading := false, error := .null } := by
  have hweather : (fetchWeatherData render env coords key).1 = .fulfilled B := by
    simp [fetchWeatherData, hfetch, hok, hjson]
  refine ⟨hweather, ?_⟩
  rw [getKeyFromStorageAndFetch_of_key render env s key hkey hne,
    locateThenFetch_of_location_fulfilled render env key coords hloc]
  simp [hweather, settle, onFulfilled, setWeather, setLoading, setError]

/-- Witness of C5: key K123, position (37.5, 127), a 200 response with the
Seoul body, starting from a state that shows an error. -/
theorem getKeyFromStorageAndFetch_success_witness :
    (getKeyFromStorageAndFetch sampleRender
        (sampleEnv (some "K123") (.fulfilled seoulPosition)
          (.fulfilled { ok := true, status := 200, json := .fulfilled seoulBody }))
        { weather := .null, loading := false, error := .string "API 키를 입력해주세요." }).settled
      = { weather := seoulBody, loading := false, error := .null } :=
  (getKeyFromStorageAndFetch_success sampleRender
    (sampleEnv (some "K123") (.fulfilled seoulPosition)
      (.fulfilled { ok := true, status := 200, json := .fulfilled seoulBody }))
    { weather := .null, loading := false, error := .string "API 키를 입력해주세요." }
    "K123" { latitude := .number (.finite (75 / 2)), longitude := .number (.finite 127) }
    { ok := true, status := 200, json := .fulfilled seoulBody } seoulBody
    rfl (by decide) rfl rfl rfl rfl).2

/-- C6: from every state (also one that holds a weather snapshot), with a
stored non-empty key, when the location step or the weather step rejects with
an error object `e`, the state after the chain settles is loading off, no
weather, and as error the translation of `e`; with code 1 that translation is
the access-denied message. -/
theorem getKeyFromStorageAndFetch_failure (render : JSValue → String) (env : Env)
    (s : PanelState) (key : String) (props : List (String × JSValue))
    (hkey : env.getItem "apiKey" = some key) (hne : key ≠ "")
    (hrejected : (getCurrentLocation env).1 = .rejected (.object props) ∨
      ∃ coords, (getCurrentLocation env).1 = .fulfilled coords ∧
        (fetchWeatherData render env coords key).1 = .rejected (.object props)) :
    (∃ message, getLocationErrorMessage (.object props) = .ok message ∧
      (getKeyFromStorageAndFetch render env s).settled
        = { weather := .null, loading := false, error := message }) ∧
    (getProp (.object props) "code" = .ok (.number (.finite 1)) →
      (getKeyFromStorageAndFetch render env s).settled
        = { weather := .null, loading := false, error := .string "위치 접근이 거부되었습니다." }) := by
  have hchain : (locateThenFetch render env key).1 = .rejected (.object props) := by
    rcases hrejected with h | ⟨coords, hloc, hweather⟩
    · exact locateThenFetch_of_location_rejected render env key _ h
    · rw [locateThenFetch_of_location_fulfilled render env key coords hloc]
      exact hweather
  have hsettled : ∀ message, getLocationErrorMessage (.object props) = .ok message →
      (getKeyFromStorageAndFetch render env s).settled
        = { weather := .null, loading := false, error := message } := by
    intro message hmessage
    rw [getKeyFromStorageAndFetch_of_key render env s key hkey hne]
    simp [hchain, settle, onRejected, hmessage, setWeather, setLoading, setError]
  refine ⟨?_, ?_⟩
  · obtain ⟨message, hmessage⟩ := getLocationErrorMessage_object props
    exact ⟨message, hmessage, hsettled message hmessage⟩
  · intro hcode
    exact hsettled _ (getLocationErrorMessage_of_code_one (.object props) hcode)

/-- Witness of C6: the geolocation request is refused (code 1) while the state
holds the Seoul snapshot. -/
theorem getKeyFromStorageAndFetch_failure_witness :
    (getKeyFromStorageAndFetch sampleRender
        (sampleEnv (some "K123") (.rejected deniedError) .pending)
        { weather := seoulBody, loading := false, error := .null }).settled
      = { weather := .null, loading := false, error := .string "위치 접근이 거부되었습니다." } :=
  (getKeyFromStorageAndFetch_failure sampleRender
    (sampleEnv (some "K123") (.rejected deniedError) .pending)
    { weather := seoulBody, loading := false, error := .null } "K123"
    [("code", .number (.finite 1)), ("message", .string "User denied Geolocation")]
    rfl (by decide) (Or.inl rfl)).2 rfl

/-- C7: from every state, with a stored non-empty key and resolved coordinates,
when the HTTP response has `ok` false (any status, any body), the weather step
rejects with its own error without reading the body; that error has no code,
and the state after the chain settles is loading off, no weather, and the
fixed could-not-load message as error. -/
theorem getKeyFromStorageAndFetch_http_failure (render : JSValue → String) (env : Env)
    (s : PanelState) (key : String) (coords : Coordinates) (response : Response)
    (hkey : env.getItem "apiKey" = some key) (hne : key ≠ "")
    (hloc : (getCurrentLocation env).1 = .fulfilled coords)
    (hfetch : env.fetch (url render coords key) = .fulfilled response)
    (hok : response.ok = false) :
    (fetchWeatherData render env coords key).1
      = .rejected (newError "날씨 정보를 불러오지 못했습니다.") ∧
    Effect.responseJson ∉ (getKeyFromStorageAndFetch render env s).trace ∧
    getProp (newError "날씨 정보를 불러오지 못했습니다.") "code" = .ok .undefined ∧
    (getKeyFromStorageAndFetch render env s).settled
      = { weather := .null, loading := false, error := .string "날씨 정보를 불러오지 못했습니다." } := by
  have hweather : fetchWeatherData render env coords key
      = (.rejected (newError "날씨 정보를 불러오지 못했습니다."),
         [Effect.fetch (url render coords key)]) := by
    simp [fetchWeatherData, hfetch, hok]
  have hlocated : (getCurrentLocation env).2 = [Effect.getCurrentPosition] ∨
      (getCurrentLocation env).2 = [] := by
    unfold getCurrentLocation
    split
    · exact Or.inl rfl
    · exact Or.inr rfl
  have htranslated : getLocationErrorMessage (newError "날씨 정보를 불러오지 못했습니다.")
      = .ok (.string "날씨 정보를 불러오지 못했습니다.") :=
    getLocationErrorMessage_newError _ (by decide)
  rw [getKeyFromStorageAndFetch_of_key render env s key hkey hne,
    locateThenFetch_of_location_fulfilled render env key coords hloc, hweather]
  refine ⟨rfl, ?_, rfl, ?_⟩
  · rcases hlocated with h | h <;> simp [h]
  · simp [settle, onRejected, htranslated, setWeather, setLoading, setError]

/-- Witness of C7: a 401 response with a JSON body, from the initial state. -/
theorem getKeyFromStorageAndFetch_http_failure_witness :
    (getKeyFromStorageAndFetch sampleRender
        (sampleEnv (some "K123") (.fulfilled seoulPosition)
          (.fulfilled { ok := false, status := 401, json := .fulfilled seoulBody }))
        initialState).settled
      = { weather := .null, loading := false, error := .string "날씨 정보를 불러오지 못했습니다." } :=
  (getKeyFromStorageAndFetch_http_failure sampleRender
    (sampleEnv (some "K123") (.fulfilled seoulPosition)
      (.fulfilled { ok := false, status := 401, json := .fulfilled seoulBody }))
    initialState "K123"
    { latitude := .number (.finite (75 / 2)), longitude := .number (.finite 127) }
    { ok := false, status := 401, json := .fulfilled seoulBody }
    rfl (by decide) rfl rfl rfl).2.2.2

/-! ## The request URL -/

/-- C8: for every latitude, longitude and key, whatever `fetch` answers, the
weather step requests exactly one URL, and it is the endpoint followed by
`lat`, `lon`, `appid` and `units=metric` in that order, with the rendered
coordinates and the key as given; when the coordinates render as 37.5 and 127
and the key is K123, the URL ends in `lat=37.5&lon=127&appid=K123&units=metric`. -/
theorem fetchWeatherData_url (render : JSValue → String) (env : Env) (coords : Coordinates)
    (apiKey : String) :
    (∀ u, Effect.fetch u ∈ (fetchWeatherData render env coords apiKey).2 ↔
      u = "https://api.openweathermap.org/data/2.5/weather?lat=" ++ render coords.latitude
        ++ "&lon=" ++ render coords.longitude ++ "&appid=" ++ apiKey ++ "&units=metric") ∧
    (render coords.latitude = "37.5" → render coords.longitude = "127" → apiKey = "K123" →
      ∀ u, Effect.fetch u ∈ (fetchWeatherData render env coords apiKey).2 →
        u = "https://api.openweathermap.org/data/2.5/weather?"
          ++ "lat=37.5&lon=127&appid=K123&units=metric") := by
  have hrequested : ∀ u, Effect.fetch u ∈ (fetchWeatherData render env coords apiKey).2 ↔
      u = url render coords apiKey := by
    intro u
    unfold fetchWeatherData
    split
    · simp
    · simp
    · split <;> simp
  refine ⟨fun u => by rw [hrequested u]; rfl, ?_⟩
  intro hlat hlon hkey u hu
  rw [(hrequested u).mp hu, url, hlat, hlon, hkey]
  decide

/-- Witness of C8 on the sample position and key K123. -/
theorem fetchWeatherData_url_witness :
    Effect.fetch ("https://api.openweathermap.org/data/2.5/weather?"
        ++ "lat=37.5&lon=127&appid=K123&units=metric")
      ∈ (fetchWeatherData sampleRender (sampleEnv (some "K123") .pending .pending)
          { latitude := .number (.finite (75 / 2)), longitude := .number (.finite 127) }
          "K123").2 := by
  have hlat : sampleRender (.number (.finite (75 / 2))) = "37.5" := by simp [sampleRender]
  have hlon : sampleRender (.number (.finite 127)) = "127" := by norm_num [sampleRender]
  have h := fetchWeatherData_url sampleRender (sampleEnv (some "K123") .pending .pending)
    { latitude := .number (.finite (75 / 2)), longitude := .number (.finite 127) } "K123"
  refine (h.1 _).mpr ?_
  simp only [hlat, hlon]
  decide

/-! ## Entering a cycle -/

/-- C10, as the code has it: from every state, with a stored non-empty key, the
state right after the synchronous part of the handler has loading on and no
error, and the weather snapshot it had before the click. -/
theorem getKeyFromStorageAndFetch_entered (render : JSValue → String) (env : Env)
    (s : PanelState) (key : String) (hkey : env.getItem "apiKey" = some key) (hne : key ≠ "") :
    (getKeyFromStorageAndFetch render env s).entered
      = { weather := s.weather, loading := true, error := .null } := by
  rw [getKeyFromStorageAndFetch_of_key render env s key hkey hne]
  rfl

/-- Witness of the amended C10 from a state that holds the Seoul snapshot. -/
theorem getKeyFromStorageAndFetch_entered_witness :
    (getKeyFromStorageAndFetch sampleRender (sampleEnv (some "K123") .pending .pending)
        { weather := seoulBody, loading := false, error := .null }).entered
      = { weather := seoulBody, loading := true, error := .null } :=
  getKeyFromStorageAndFetch_entered sampleRender (sampleEnv (some "K123") .pending .pending)
    { weather := seoulBody, loading := false, error := .null } "K123" rfl (by decide)

/-- Counterexample to C10 as stated: a click with key K123 on a state that
holds the Seoul snapshot leaves that snapshot in place while loading is on. -/
theorem getKeyFromStorageAndFetch_entered_counterexample :
    (getKeyFromStorageAndFetch sampleRender (sampleEnv (some "K123") .pending .pending)
        { weather := seoulBody, loading := false, error := .null }).entered.loading = true ∧
    (getKeyFromStorageAndFetch sampleRender (sampleEnv (some "K123") .pending .pending)
        { weather := seoulBody, loading := false, error := .null }).entered.weather
      ≠ JSValue.null := by
  refine ⟨rfl, ?_⟩
  intro h
  have h2 : seoulBody = JSValue.null := h
  simp [seoulBody] at h2

/-! ## Loading together with an error -/

/-- Every event other than a click without a usable key keeps the property
that loading and an error are not shown together. -/
theorem step_keeps_exclusive (m : Machine) (event : PanelEvent)
    (hevent : ∀ storedKey, event = .click storedKey → ∃ key, storedKey = some key ∧ key ≠ "")
    (h : ¬ (m.panel.loading = true ∧ toBoolean m.panel.error = true)) :
    ¬ ((step m event).panel.loading = true ∧ toBoolean (step m event).panel.error = true) := by
  cases event with
  | click storedKey =>
    obtain ⟨key, rfl, hne⟩ := hevent storedKey rfl
    simp [step, enterFetch, hne, setError, setLoading, toBoolean]
  | chainFulfilled weatherData =>
    unfold step
    split_ifs
    · exact h
    · simp [onFulfilled, setLoading, setWeather]
  | chainRejected error =>
    unfold step
    split_ifs
    · exact h
    · simp only [onRejected]
      split
      · simp [setLoading, setWeather, setError]
      · exact h

/-- C9 on the code: the state reached from the initial state by one click
without a stored key has loading on and an error message at the same time. -/
theorem loading_with_error_reachable :
    Reachable { weather := .null, loading := true, error := .string "API 키를 입력해주세요." } ∧
    ¬ (∀ s, Reachable s → ¬ (s.loading = true ∧ toBoolean s.error = true)) := by
  have hreach : Reachable
      { weather := .null, loading := true, error := .string "API 키를 입력해주세요." } :=
    ⟨[.click none], rfl⟩
  refine ⟨hreach, fun hall => hall _ hreach ⟨rfl, ?_⟩⟩
  simp [toBoolean]

end WeatherPanel
